import Mathlib

/-!
Shallow embedding of the agentic-resume-generator repository
(`resume_generator` Python package) and verification of the frozen claims
about it.

The embedding covers:
* the provider layer (`llm_utils/llm/providers/base.py`, `openai.py`):
  exception handling, the tenacity retry configuration built by
  `get_openai_retry_decorator`, and which methods `BaseProvider.__init__`
  actually wraps with the retry decorator;
* the prompt loader (`llm_utils/prompts.py`);
* the PDF parser (`parser.py`, `llm_utils/utils.py`);
* the data model (`models/resume.py`) with pydantic JSON serialization;
* the five-stage optimizer (`optimizer.py`).

Network calls are modelled by oracles: an environment function gives the
outcome of each underlying API attempt, and the language model is a function
from the request (message list and response format) to an assistant message.
-/

set_option autoImplicit false

namespace ResumeGen

/-- Python exceptions relevant to the repository, as a flat enumeration.
The three openai transient classes, the wrapper `LLMError`
(`providers/base.py`), and the builtin exceptions the code raises. -/
inductive PyExc where
  | rateLimitError (msg : String)
  | apiError (msg : String)
  | apiConnectionError (msg : String)
  | llmError (msg : String)
  | valueError (msg : String)
  | attributeError (msg : String)
  | fileNotFoundError (msg : String)
  | otherError (msg : String)
deriving Repr, DecidableEq

/-- `str(e)` of an exception: its message. -/
def PyExc.message : PyExc → String
  | .rateLimitError m => m
  | .apiError m => m
  | .apiConnectionError m => m
  | .llmError m => m
  | .valueError m => m
  | .attributeError m => m
  | .fileNotFoundError m => m
  | .otherError m => m

/-- The exception test configured in `get_openai_retry_decorator`
(`openai.py` lines 22-25): membership in
`(openai.RateLimitError, openai.APIError, openai.APIConnectionError)`. -/
def isOpenAITransient : PyExc → Bool
  | .rateLimitError _ => true
  | .apiError _ => true
  | .apiConnectionError _ => true
  | _ => false

/-- tenacity `wait_exponential(multiplier, min=lo, max=hi)` evaluated after
attempt number `n` (1-indexed): `multiplier * 2 ^ (n - 1)` clamped into
`[lo, hi]`. -/
def wait_exponential (multiplier lo hi : Nat) (n : Nat) : Nat :=
  Nat.max lo (Nat.min (multiplier * 2 ^ (n - 1)) hi)

/-- A tenacity `retry(...)` decorator configuration: the retry predicate over
the raised exception, the wait schedule, and the attempt cap. -/
structure RetryConfig where
  should_retry : PyExc → Bool
  wait : Nat → Nat
  max_attempts : Nat

/-- `get_openai_retry_decorator` (`openai.py` lines 13-28):
`retry_if_exception_type((RateLimitError, APIError, APIConnectionError))`,
`wait_exponential(multiplier=1, min=4, max=60)`, `stop_after_attempt(5)`. -/
def get_openai_retry_decorator : RetryConfig :=
  { should_retry := isOpenAITransient
  , wait := wait_exponential 1 4 60
  , max_attempts := 5 }

/-- `get_default_retry_decorator` (`base.py` lines 29-37): retries on any
exception, same wait schedule, same cap. -/
def get_default_retry_decorator : RetryConfig :=
  { should_retry := fun _ => true
  , wait := wait_exponential 1 4 60
  , max_attempts := 5 }

/-- Outcome of invoking a (possibly retry-decorated) provider method:
a returned value, an exception propagated out of the body, or tenacity's
`RetryError` (raised when the attempt cap is hit, wrapping the last
exception; `reraise` is left at its default `False`). -/
inductive CallResult (α : Type) where
  | ok (v : α)
  | raised (e : PyExc)
  | retryError (e : PyExc)
deriving Repr, DecidableEq

/-- Full account of one decorated invocation: its result, how many
underlying attempts ran, and the backoff waits slept between attempts. -/
structure RetryRun (α : Type) where
  result : CallResult α
  attempts : Nat
  waits : List Nat
deriving Repr, DecidableEq

/-- The tenacity retry loop. `f k` is the outcome of the underlying body on
attempt number `k` (1-indexed); `remaining` counts the attempts the stop
condition still allows, the current one included. On success the value is
returned; on an exception failing the retry predicate it propagates; on a
retryable exception the loop sleeps `wait k` and re-attempts, or raises
`RetryError` once the cap is reached. -/
def tenacityRun {α : Type} (sr : PyExc → Bool) (wait : Nat → Nat)
    (f : Nat → Except PyExc α) (k : Nat) : Nat → RetryRun α
  | 0 => { result := .retryError (.otherError "no attempts allowed"), attempts := 0, waits := [] }
  | remaining + 1 =>
    match f k with
    | .ok v => { result := .ok v, attempts := 1, waits := [] }
    | .error e =>
      if sr e then
        if remaining = 0 then
          { result := .retryError e, attempts := 1, waits := [] }
        else
          let rest := tenacityRun sr wait f (k + 1) remaining
          { result := rest.result, attempts := rest.attempts + 1, waits := wait k :: rest.waits }
      else
        { result := .raised e, attempts := 1, waits := [] }

/-- Invoke a body through a retry decorator: attempts start at 1 and at most
`cfg.max_attempts` of them run. -/
def retryCall {α : Type} (cfg : RetryConfig) (f : Nat → Except PyExc α) : RetryRun α :=
  tenacityRun cfg.should_retry cfg.wait f 1 cfg.max_attempts

/-- One execution of the body shared by the four `OpenAIProvider` completion
methods (`openai.py`: the `try/except` at lines 83-91, 118-126, 155-169,
198-212) on attempt `k`: the underlying SDK call `env k` is returned on
success; a transient openai exception is re-raised unchanged; any other
exception is wrapped in `LLMError("Error calling OpenAI API: " + str(e))`. -/
def openaiAttempt {α : Type} (env : Nat → Except PyExc α) (k : Nat) : Except PyExc α :=
  match env k with
  | .ok v => .ok v
  | .error e =>
    if isOpenAITransient e then .error e
    else .error (.llmError ("Error calling OpenAI API: " ++ e.message))

/-- Invoking a provider method that was NOT wrapped by a retry decorator:
exactly one attempt runs and any exception propagates. -/
def rawRun {α : Type} (env : Nat → Except PyExc α) : RetryRun α :=
  match openaiAttempt env 1 with
  | .ok v => { result := .ok v, attempts := 1, waits := [] }
  | .error e => { result := .raised e, attempts := 1, waits := [] }

/-- Observable behaviour of an `OpenAIProvider` instance: for each completion
method, the `RetryRun` produced when the underlying SDK attempts behave as
`env`. -/
structure ProviderBehavior (α : Type) where
  chat_completion : (Nat → Except PyExc α) → RetryRun α
  achat_completion : (Nat → Except PyExc α) → RetryRun α
  structured_chat_completion : (Nat → Except PyExc α) → RetryRun α
  astructured_chat_completion : (Nat → Except PyExc α) → RetryRun α

/-- `BaseProvider.__init__` (`base.py` lines 43-47): the retry decorator is
applied to `self.chat_completion` and `self.achat_completion` only; the
structured methods are left as their plain bodies. -/
def BaseProvider.init {α : Type} (retry_decorator : RetryConfig) : ProviderBehavior α :=
  { chat_completion := fun env => retryCall retry_decorator (openaiAttempt env)
  , achat_completion := fun env => retryCall retry_decorator (openaiAttempt env)
  , structured_chat_completion := fun env => rawRun env
  , astructured_chat_completion := fun env => rawRun env }

/-- `OpenAIProvider.__init__` (`openai.py` lines 34-37) with
`retry_decorator=None`: `super().__init__(get_openai_retry_decorator())`. -/
def OpenAIProvider.init {α : Type} : ProviderBehavior α :=
  BaseProvider.init get_openai_retry_decorator

/-! ## Prompt loader (`llm_utils/prompts.py`) -/

/-- A compiled Jinja2 template, identified by its source text. -/
structure Template where
  src : String
deriving Repr, DecidableEq

/-- The filesystem under `DEFAULT_PROMPTS_PATH`: which subfolders exist, and
the template file (if any) at each path relative to the prompts directory. -/
structure PromptDir where
  subfolders : List String
  template_files : String → Option Template

/-- `PromptLoader` instance state: the chosen subfolder and the
`self._templates` cache dict, in insertion order. -/
structure PromptLoader where
  subfolder : String
  _templates : List (String × Template)
deriving Repr, DecidableEq

/-- Dict lookup in the `_templates` cache. -/
def templatesFind : List (String × Template) → String → Option Template
  | [], _ => none
  | (k, t) :: rest, n => if k = n then some t else templatesFind rest n

/-- `PromptLoader.__init__` (`prompts.py` lines 18-40): raises `ValueError`
when the subfolder does not exist under the prompts directory, otherwise
stores the subfolder and an empty template cache. -/
def PromptLoader.init (fs : PromptDir) (subfolder : String) : Except PyExc PromptLoader :=
  if subfolder ∈ fs.subfolders then
    .ok { subfolder := subfolder, _templates := [] }
  else
    .error (.valueError ("Subfolder " ++ subfolder ++ " does not exist in prompts directory"))

/-- `PromptLoader.__getattr__` (`prompts.py` lines 42-62): on a cache miss,
`get_template(f"{subfolder}/{template_name}.jinja")` is consulted and the
result cached; `jinja2.TemplateNotFound` becomes `AttributeError`. Returns
the template together with the loader state after the access. -/
def PromptLoader.getattr (fs : PromptDir) (loader : PromptLoader)
    (template_name : String) : Except PyExc (Template × PromptLoader) :=
  match templatesFind loader._templates template_name with
  | some t => .ok (t, loader)
  | none =>
    match fs.template_files (loader.subfolder ++ "/" ++ template_name ++ ".jinja") with
    | some t =>
      .ok (t, { subfolder := loader.subfolder
              , _templates := loader._templates ++ [(template_name, t)] })
    | none =>
      .error (.attributeError ("No template file " ++ template_name ++ ".jinja found in "
        ++ loader.subfolder ++ " subfolder"))

/-! ## Data model (`models/resume.py`) and pydantic JSON serialization -/

/-- JSON values, for embedding `model_dump_json`. -/
inductive JValue where
  | jNull
  | jStr (s : String)
  | jArr (xs : List JValue)
  | jObj (fields : List (String × JValue))
deriving Repr

/-- JSON string escaping of one character. -/
def jsonEscapeChar (c : Char) : String :=
  if c = '\\' then "\\\\"
  else if c = '"' then "\\\""
  else if c = '\n' then "\\n"
  else if c = '\t' then "\\t"
  else if c = '\r' then "\\r"
  else String.singleton c

/-- A JSON string literal. -/
def jsonStringLit (s : String) : String :=
  "\"" ++ String.join (s.toList.map jsonEscapeChar) ++ "\""

mutual

/-- Pretty-print a JSON value with the given indent width, as
`json.dumps(..., indent=n)` does (pydantic `model_dump_json(indent=n)`). -/
def JValue.render (indent : Nat) : JValue → Nat → String
  | .jNull, _ => "null"
  | .jStr s, _ => jsonStringLit s
  | .jArr [], _ => "[]"
  | .jArr (x :: xs), depth =>
    let pad := String.join (List.replicate ((depth + 1) * indent) " ")
    let close := String.join (List.replicate (depth * indent) " ")
    let items := (JValue.renderArr indent (x :: xs) (depth + 1)).map (fun s => pad ++ s)
    "[\n" ++ String.intercalate ",\n" items ++ "\n" ++ close ++ "]"
  | .jObj [], _ => "\x7b\x7d"
  | .jObj (f :: fs), depth =>
    let pad := String.join (List.replicate ((depth + 1) * indent) " ")
    let close := String.join (List.replicate (depth * indent) " ")
    let items := (JValue.renderObj indent (f :: fs) (depth + 1)).map (fun s => pad ++ s)
    "\x7b\n" ++ String.intercalate ",\n" items ++ "\n" ++ close ++ "\x7d"

/-- Render each element of a JSON array. -/
def JValue.renderArr (indent : Nat) : List JValue → Nat → List String
  | [], _ => []
  | v :: vs, depth => JValue.render indent v depth :: JValue.renderArr indent vs depth

/-- Render each `"key": value` line of a JSON object. -/
def JValue.renderObj (indent : Nat) : List (String × JValue) → Nat → List String
  | [], _ => []
  | (k, v) :: fs, depth =>
    (jsonStringLit k ++ ": " ++ JValue.render indent v depth) :: JValue.renderObj indent fs depth

end

/-- An optional string field serializes to its value or JSON `null`. -/
def jOptStr : Option String → JValue
  | none => .jNull
  | some s => .jStr s

/-- `PersonalInfo` (`models/resume.py`). -/
structure PersonalInfo where
  name : String
  email : String
  phone : String
  location : String
  linkedin : Option String
deriving Repr, DecidableEq

/-- `Experience` (`models/resume.py`). -/
structure Experience where
  company : String
  title : String
  duration : String
  location : String
  achievements : List String
deriving Repr, DecidableEq

/-- `Education` (`models/resume.py`). -/
structure Education where
  degree : String
  institution : String
  duration : String
  gpa : Option String
deriving Repr, DecidableEq

/-- `Skills` (`models/resume.py`). -/
structure Skills where
  professional : List String
  tools : List String
  soft_skills : List String
deriving Repr, DecidableEq

/-- `Project` (`models/resume.py`). -/
structure Project where
  name : String
  description : String
  methodologies : List String
  link : Option String
deriving Repr, DecidableEq

/-- `Resume` (`models/resume.py`). -/
structure Resume where
  personal_info : PersonalInfo
  summary : String
  experience : List Experience
  education : List Education
  skills : Skills
  projects : List Project
deriving Repr, DecidableEq

/-- `model_dump` of a `Resume`, field order as declared in the pydantic
model. -/
def Resume.toJValue (r : Resume) : JValue :=
  .jObj
    [ ("personal_info", .jObj
        [ ("name", .jStr r.personal_info.name)
        , ("email", .jStr r.personal_info.email)
        , ("phone", .jStr r.personal_info.phone)
        , ("location", .jStr r.personal_info.location)
        , ("linkedin", jOptStr r.personal_info.linkedin) ])
    , ("summary", .jStr r.summary)
    , ("experience", .jArr (r.experience.map (fun e => .jObj
        [ ("company", .jStr e.company)
        , ("title", .jStr e.title)
        , ("duration", .jStr e.duration)
        , ("location", .jStr e.location)
        , ("achievements", .jArr (e.achievements.map JValue.jStr)) ])))
    , ("education", .jArr (r.education.map (fun e => .jObj
        [ ("degree", .jStr e.degree)
        , ("institution", .jStr e.institution)
        , ("duration", .jStr e.duration)
        , ("gpa", jOptStr e.gpa) ])))
    , ("skills", .jObj
        [ ("professional", .jArr (r.skills.professional.map JValue.jStr))
        , ("tools", .jArr (r.skills.tools.map JValue.jStr))
        , ("soft_skills", .jArr (r.skills.soft_skills.map JValue.jStr)) ])
    , ("projects", .jArr (r.projects.map (fun p => .jObj
        [ ("name", .jStr p.name)
        , ("description", .jStr p.description)
        , ("methodologies", .jArr (p.methodologies.map JValue.jStr))
        , ("link", jOptStr p.link) ]))) ]

/-- `Resume.model_dump_json(indent=n)`. -/
def Resume.model_dump_json (indent : Nat) (r : Resume) : String :=
  JValue.render indent r.toJValue 0

/-! ## Chat messages -/

/-- One entry of a structured (multi-part) message content: a text part or an
image-url part, as built in `ResumeParser._llm_parser`. -/
inductive ContentPart where
  | textPart (text : String)
  | imageUrl (url : String)
deriving Repr, DecidableEq

/-- Message content: a plain string (optimizer) or a part list (parser). -/
inductive MsgContent where
  | text (s : String)
  | parts (ps : List ContentPart)
deriving Repr, DecidableEq

/-- A chat message dict with `role` and `content` keys. -/
structure ChatMessage where
  role : String
  content : MsgContent
deriving Repr, DecidableEq

/-! ## PDF utilities (`llm_utils/utils.py`) -/

/-- A page of a PDF document, by its raw content bytes. -/
structure PdfPage where
  data : List Nat
deriving Repr, DecidableEq

/-- A PDF document: its pages in order. -/
structure PdfDocument where
  pages : List PdfPage
deriving Repr, DecidableEq

/-- A rasterized page image (`PIL.Image`), by its pixel bytes. -/
structure RasterImage where
  pixels : List Nat
deriving Repr, DecidableEq

/-- `pdf_to_images` (`utils.py` lines 11-42): raises `FileNotFoundError`
when the path does not exist, otherwise rasterizes each page at the given
dpi, one image per page in page order. The filesystem `fs` and the
library rasterizer `render` (fitz `get_pixmap` at zoom `dpi / 72` plus
`Image.frombytes`) are oracles of the model. -/
def pdf_to_images (render : Nat → PdfPage → RasterImage)
    (fs : String → Option PdfDocument) (pdf_path : String) (dpi : Nat) :
    Except PyExc (List RasterImage) :=
  match fs pdf_path with
  | none => .error (.fileNotFoundError ("PDF file not found: " ++ pdf_path))
  | some pdf_document => .ok (pdf_document.pages.map (render dpi))

/-- The base64 alphabet. -/
def base64Table : List Char :=
  "ABCDEFGHIJKLMNOPQRSTUVWXYZabcdefghijklmnopqrstuvwxyz0123456789+/".toList

/-- The base64 digit for a 6-bit value. -/
def base64Char (n : Nat) : Char := base64Table.getD n 'A'

/-- Standard base64 encoding of a byte list, with padding. -/
def base64Encode : List Nat → String
  | [] => ""
  | [a] =>
    let a := a % 256
    String.mk [base64Char (a / 4), base64Char (a % 4 * 16)] ++ "=="
  | [a, b] =>
    let a := a % 256
    let b := b % 256
    String.mk [base64Char (a / 4), base64Char (a % 4 * 16 + b / 16),
      base64Char (b % 16 * 4)] ++ "="
  | a :: b :: c :: rest =>
    let a := a % 256
    let b := b % 256
    let c := c % 256
    String.mk [base64Char (a / 4), base64Char (a % 4 * 16 + b / 16),
      base64Char (b % 16 * 4 + c / 64), base64Char (c % 64)] ++ base64Encode rest

/-- `image_to_base64` (`utils.py` lines 45-58): JPEG-encode the image (the
PIL encoder `jpeg` is an oracle), base64 it, and prepend the data-url
header. -/
def image_to_base64 (jpeg : RasterImage → List Nat) (image : RasterImage) : String :=
  "data:image/jpeg;base64," ++ base64Encode (jpeg image)

/-! ## Parser (`parser.py`) -/

/-- The rendered extraction prompt templates used by `ResumeParser`. -/
structure ParserPrompts where
  system : String
  user : String

/-- The provider's structured response message for the parser: the `.parsed`
`Resume` payload. -/
structure ParsedMessage where
  parsed : Resume

/-- The single request `ResumeParser._llm_parser` (`parser.py` lines 46-75)
builds: a system message and a user message whose parts are the user prompt
text followed by one image-url entry per base64 image, in order. -/
def ResumeParser.requestMessages (prompts : ParserPrompts)
    (base64_images : List String) : List ChatMessage :=
  [ { role := "system", content := .text prompts.system }
  , { role := "user"
    , content := .parts (.textPart prompts.user :: base64_images.map ContentPart.imageUrl) } ]

/-- `ResumeParser._llm_parser`: one `structured_chat_completion` call with
`response_format=Resume`; returns `response.parsed` and the trace of model
requests made. -/
def ResumeParser.llmParserCall (llm : List ChatMessage → ParsedMessage)
    (prompts : ParserPrompts) (base64_images : List String) :
    Resume × List (List ChatMessage) :=
  let req := ResumeParser.requestMessages prompts base64_images
  ((llm req).parsed, [req])

/-- `ResumeParser.parse_resume` (`parser.py` lines 15-28):
`pdf_to_images` (dpi left at its default 300), `image_to_base64` on each
image, then `_llm_parser`. Returns the outcome together with the trace of
model requests made. -/
def ResumeParser.parse_resume (render : Nat → PdfPage → RasterImage)
    (jpeg : RasterImage → List Nat) (llm : List ChatMessage → ParsedMessage)
    (fs : String → Option PdfDocument) (prompts : ParserPrompts)
    (pdf_path : String) : Except PyExc Resume × List (List ChatMessage) :=
  match pdf_to_images render fs pdf_path 300 with
  | .error e => (.error e, [])
  | .ok images =>
    let base64_images := images.map (image_to_base64 jpeg)
    let out := ResumeParser.llmParserCall llm prompts base64_images
    (.ok out.1, out.2)

/-! ## Optimizer (`optimizer.py`) -/

/-- The pydantic schema passed as `response_format` by each stage. -/
inductive Schema where
  | jobAnalysis
  | gapAnalysis
  | contentPrioritization
  | optimizedResume
  | resumeSchema
deriving Repr, DecidableEq

/-- One `structured_chat_completion` call issued by the optimizer: the full
message list passed and the declared response format. -/
structure ProviderCall where
  messages : List ChatMessage
  response_format : Schema
deriving Repr, DecidableEq

/-- `ResumeOptimizer` instance state: `self.messages`, plus the trace of
provider calls issued so far. -/
structure OptimizerState where
  messages : List ChatMessage
  calls : List ProviderCall
deriving Repr, DecidableEq

/-- The rendered optimization prompt templates: `system.jinja` takes no
variables; `stage_1.jinja` takes `job_description` and `user_preferences`;
`stage_2.jinja` takes `current_resume_json`; stages 3-5 take none. -/
structure OptimizerPrompts where
  system : String
  stage_1 : String → Option String → String
  stage_2 : String → String
  stage_3 : String
  stage_4 : String
  stage_5 : String

/-- The language-model oracle for the optimizer: assistant content produced
for a message list and response format. -/
def OptLLM : Type := List ChatMessage → Schema → String

/-- `ResumeOptimizer.__init__` (`optimizer.py` lines 28-42): `self.messages`
starts as the single system message rendered from `system.jinja`. -/
def ResumeOptimizer.init (prompts : OptimizerPrompts) : OptimizerState :=
  { messages := [{ role := "system", content := .text prompts.system }], calls := [] }

/-- `ResumeOptimizer._chat_completion` (`optimizer.py` lines 44-66): append
the user message, call `structured_chat_completion` on the whole
`self.messages`, append the assistant reply, return it. -/
def ResumeOptimizer.chat_completion_ (llm : OptLLM) (st : OptimizerState)
    (message : String) (response_format : Schema) : String × OptimizerState :=
  let ctx := st.messages ++ [{ role := "user", content := .text message }]
  let assistant_message := llm ctx response_format
  (assistant_message,
   { messages := ctx ++ [{ role := "assistant", content := .text assistant_message }]
   , calls := st.calls ++ [{ messages := ctx, response_format := response_format }] })

/-- `ResumeOptimizer.stage_1` (`optimizer.py` lines 68-80): job analysis,
`response_format=JobAnalysis`. -/
def ResumeOptimizer.stage_1 (llm : OptLLM) (prompts : OptimizerPrompts)
    (job_description : String) (user_preferences : Option String)
    (st : OptimizerState) : String × OptimizerState :=
  ResumeOptimizer.chat_completion_ llm st
    (prompts.stage_1 job_description user_preferences) .jobAnalysis

/-- `ResumeOptimizer.stage_2` (`optimizer.py` lines 82-94): gap analysis;
the prompt takes `current_resume.model_dump_json(indent=2)`,
`response_format=GapAnalysis`. -/
def ResumeOptimizer.stage_2 (llm : OptLLM) (prompts : OptimizerPrompts)
    (current_resume : Resume) (st : OptimizerState) : String × OptimizerState :=
  ResumeOptimizer.chat_completion_ llm st
    (prompts.stage_2 (Resume.model_dump_json 2 current_resume)) .gapAnalysis

/-- `ResumeOptimizer.stage_3` (`optimizer.py` lines 96-103): content
prioritization, `response_format=ContentPrioritization`. -/
def ResumeOptimizer.stage_3 (llm : OptLLM) (prompts : OptimizerPrompts)
    (st : OptimizerState) : String × OptimizerState :=
  ResumeOptimizer.chat_completion_ llm st prompts.stage_3 .contentPrioritization

/-- `ResumeOptimizer.stage_4` (`optimizer.py` lines 105-112): content
optimization, `response_format=OptimizedResume`. -/
def ResumeOptimizer.stage_4 (llm : OptLLM) (prompts : OptimizerPrompts)
    (st : OptimizerState) : String × OptimizerState :=
  ResumeOptimizer.chat_completion_ llm st prompts.stage_4 .optimizedResume

/-- `ResumeOptimizer.stage_5` (`optimizer.py` lines 114-122): final resume
generation, `response_format=Resume`. -/
def ResumeOptimizer.stage_5 (llm : OptLLM) (prompts : OptimizerPrompts)
    (st : OptimizerState) : String × OptimizerState :=
  ResumeOptimizer.chat_completion_ llm st prompts.stage_5 .resumeSchema

/-- `ResumeOptimizer.optimize_resume` (`optimizer.py` lines 124-155): the
five stages in order, returning `stage_5`'s result (`print_as_yaml` only
logs and does not touch the state). -/
def ResumeOptimizer.optimize_resume (llm : OptLLM) (prompts : OptimizerPrompts)
    (job_description : String) (current_resume : Resume)
    (user_preferences : Option String) (st : OptimizerState) :
    String × OptimizerState :=
  let s1 := (ResumeOptimizer.stage_1 llm prompts job_description user_preferences st).2
  let s2 := (ResumeOptimizer.stage_2 llm prompts current_resume s1).2
  let s3 := (ResumeOptimizer.stage_3 llm prompts s2).2
  let s4 := (ResumeOptimizer.stage_4 llm prompts s3).2
  ResumeOptimizer.stage_5 llm prompts s4

/-! ## Concrete example instances -/

/-- A concrete prompts directory: one subfolder `optimization` holding the
single template file `system.jinja`. -/
def promptDirExample : PromptDir :=
  { subfolders := ["optimization"]
  , template_files := fun p =>
      if p = "optimization/system.jinja" then some { src := "SYS" } else none }

/-- A concrete language-model oracle returning a fixed reply. -/
def llmExample : OptLLM := fun _ _ => "assistant reply"

/-- Concrete rendered optimization prompts; `stage_2` forwards the resume
JSON unchanged. -/
def optimizerPromptsExample : OptimizerPrompts :=
  { system := "sys"
  , stage_1 := fun job_description _ => job_description
  , stage_2 := fun current_resume_json => current_resume_json
  , stage_3 := "p3"
  , stage_4 := "p4"
  , stage_5 := "p5" }

/-- A concrete resume. -/
def resumeExample : Resume :=
  { personal_info :=
      { name := "Ada", email := "ada@mail.test", phone := "555"
      , location := "NYC", linkedin := none }
  , summary := "Builds things"
  , experience := []
  , education := []
  , skills := { professional := [], tools := [], soft_skills := [] }
  , projects := [] }

/-! ## Helper lemmas -/

theorem tenacityRun_attempts_le {α : Type} (sr : PyExc → Bool) (wait : Nat → Nat)
    (f : Nat → Except PyExc α) :
    ∀ rem k, (tenacityRun sr wait f k rem).attempts ≤ rem := by
  intro rem
  induction rem with
  | zero => intro k; simp [tenacityRun]
  | succ m ih =>
    intro k
    simp only [tenacityRun]
    cases f k with
    | ok v => simp
    | error e =>
      by_cases hsr : sr e
      · simp only [hsr, if_true]
        by_cases hm : m = 0
        · simp [hm]
        · simp only [hm, if_false]
          have := ih (k + 1)
          omega
      · simp [hsr]

theorem tenacityRun_attempts_pos {α : Type} (sr : PyExc → Bool) (wait : Nat → Nat)
    (f : Nat → Except PyExc α) :
    ∀ rem k, 1 ≤ rem → 1 ≤ (tenacityRun sr wait f k rem).attempts := by
  intro rem
  cases rem with
  | zero => intro k h; omega
  | succ m =>
    intro k _
    simp only [tenacityRun]
    cases f k with
    | ok v => simp
    | error e =>
      by_cases hsr : sr e
      · simp only [hsr, if_true]
        by_cases hm : m = 0
        · simp [hm]
        · simp [hm]
      · simp [hsr]

theorem tenacityRun_waits_length {α : Type} (sr : PyExc → Bool) (wait : Nat → Nat)
    (f : Nat → Except PyExc α) :
    ∀ rem k, 1 ≤ rem →
      (tenacityRun sr wait f k rem).waits.length + 1 = (tenacityRun sr wait f k rem).attempts := by
  intro rem
  induction rem with
  | zero => intro k h; omega
  | succ m ih =>
    intro k _
    simp only [tenacityRun]
    cases f k with
    | ok v => simp
    | error e =>
      by_cases hsr : sr e
      · simp only [hsr, if_true]
        by_cases hm : m = 0
        · simp [hm]
        · simp only [hm, if_false]
          have := ih (k + 1) (by omega)
          simp only [List.length_cons]
          omega
      · simp [hsr]

theorem templatesFind_append_self (l : List (String × Template)) (n : String) (t : Template)
    (h : templatesFind l n = none) :
    templatesFind (l ++ [(n, t)]) n = some t := by
  induction l with
  | nil => simp [templatesFind]
  | cons hd tl ih =>
    simp only [templatesFind, List.cons_append] at h ⊢
    by_cases hk : hd.1 = n
    · rw [if_pos hk] at h
      exact absurd h (by simp)
    · cases hd
      simp only at hk
      rw [if_neg hk] at h ⊢
      exact ih h

theorem isOpenAITransient_llmError (m : String) :
    isOpenAITransient (.llmError m) = false := rfl

theorem retryCall_attempts_ge_two {α : Type} (cfg : RetryConfig) (f : Nat → Except PyExc α)
    (e : PyExc) (hf : f 1 = Except.error e) (hsr : cfg.should_retry e = true)
    (hmax : 2 ≤ cfg.max_attempts) : 2 ≤ (retryCall cfg f).attempts := by
  unfold retryCall
  obtain ⟨m, hm⟩ : ∃ m, cfg.max_attempts = m + 1 + 1 := ⟨cfg.max_attempts - 2, by omega⟩
  rw [hm]
  simp only [tenacityRun, hf, hsr, if_true]
  rw [if_neg (by omega : ¬(m + 1 = 0))]
  have := tenacityRun_attempts_pos cfg.should_retry cfg.wait f (m + 1) (1 + 1) (by omega)
  show 2 ≤ (tenacityRun cfg.should_retry cfg.wait f (1 + 1) (m + 1)).attempts + 1
  omega

/-! ## Claim theorems -/

/-- C4: the provider retry policy built by `get_openai_retry_decorator` is a
generic exponential-backoff decorator over library exceptions: it retries if
and only if the raised exception is `openai.RateLimitError`,
`openai.APIError` or `openai.APIConnectionError`; the wait after attempt `n`
is `2 ^ (n - 1)` seconds clamped into `[4, 60]`, hence within bounds and
non-decreasing; and at most 5 attempts ever run, with exactly one backoff
wait between consecutive attempts. -/
theorem c4_retry_policy (f g : Nat → Except PyExc Nat) (e e2 : PyExc) (n : Nat)
    (hn : 1 ≤ n)
    (hf : f 1 = Except.error e) (he : isOpenAITransient e = false)
    (hg : g 1 = Except.error e2) (he2 : isOpenAITransient e2 = true) :
    get_openai_retry_decorator.max_attempts = 5
    ∧ get_openai_retry_decorator.should_retry = isOpenAITransient
    ∧ (∀ m, isOpenAITransient (PyExc.rateLimitError m) = true
        ∧ isOpenAITransient (PyExc.apiError m) = true
        ∧ isOpenAITransient (PyExc.apiConnectionError m) = true
        ∧ isOpenAITransient (PyExc.llmError m) = false
        ∧ isOpenAITransient (PyExc.valueError m) = false
        ∧ isOpenAITransient (PyExc.attributeError m) = false
        ∧ isOpenAITransient (PyExc.fileNotFoundError m) = false
        ∧ isOpenAITransient (PyExc.otherError m) = false)
    ∧ (∀ h : Nat → Except PyExc Nat, (retryCall get_openai_retry_decorator h).attempts ≤ 5)
    ∧ (∀ h : Nat → Except PyExc Nat,
        (retryCall get_openai_retry_decorator h).waits.length + 1
          = (retryCall get_openai_retry_decorator h).attempts)
    ∧ retryCall get_openai_retry_decorator f
        = { result := .raised e, attempts := 1, waits := [] }
    ∧ 2 ≤ (retryCall get_openai_retry_decorator g).attempts
    ∧ get_openai_retry_decorator.wait n = Nat.max 4 (Nat.min (2 ^ (n - 1)) 60)
    ∧ 4 ≤ get_openai_retry_decorator.wait n
    ∧ get_openai_retry_decorator.wait n ≤ 60
    ∧ get_openai_retry_decorator.wait n ≤ get_openai_retry_decorator.wait (n + 1) := by
  refine ⟨rfl, rfl, ?_, ?_, ?_, ?_, ?_, ?_, ?_, ?_, ?_⟩
  · intro m
    exact ⟨rfl, rfl, rfl, rfl, rfl, rfl, rfl, rfl⟩
  · intro h
    exact tenacityRun_attempts_le _ _ _ 5 1
  · intro h
    exact tenacityRun_waits_length _ _ _ 5 1 (by omega)
  · simp [retryCall, get_openai_retry_decorator, tenacityRun, hf, he]
  · exact retryCall_attempts_ge_two get_openai_retry_decorator g e2 hg he2 (by decide)
  · simp [get_openai_retry_decorator, wait_exponential]
  · simp only [get_openai_retry_decorator, wait_exponential, one_mul, Nat.max_def, Nat.min_def]
    split_ifs <;> omega
  · simp only [get_openai_retry_decorator, wait_exponential, one_mul, Nat.max_def, Nat.min_def]
    split_ifs <;> omega
  · have hp : (2 : Nat) ^ (n - 1) ≤ 2 ^ (n + 1 - 1) :=
      Nat.pow_le_pow_right (by omega) (by omega)
    simp only [get_openai_retry_decorator, wait_exponential, one_mul, Nat.max_def, Nat.min_def]
    split_ifs <;> omega

/-- C4 witness: concrete runs of the retry policy. A non-transient
`LLMError` is not retried; a `RateLimitError` leads to a second attempt. -/
theorem c4_retry_policy_witness :
    retryCall get_openai_retry_decorator
        (fun _ => (Except.error (PyExc.llmError "boom") : Except PyExc Nat))
      = { result := .raised (PyExc.llmError "boom"), attempts := 1, waits := [] }
    ∧ 2 ≤ (retryCall get_openai_retry_decorator
        (fun _ => (Except.error (PyExc.rateLimitError "rate limited") : Except PyExc Nat))).attempts := by
  have h := c4_retry_policy
    (fun _ => (Except.error (PyExc.llmError "boom") : Except PyExc Nat))
    (fun _ => (Except.error (PyExc.rateLimitError "rate limited") : Except PyExc Nat))
    (PyExc.llmError "boom") (PyExc.rateLimitError "rate limited") 1
    (by omega) rfl rfl rfl rfl
  exact ⟨h.2.2.2.2.2.1, h.2.2.2.2.2.2.1⟩

/-- C8: each completion-method body re-raises the three transient openai
exceptions unchanged and wraps any other exception of the underlying call in
`LLMError`; a failing invocation never produces a value. On the constructed
provider the unwrapped structured methods propagate that outcome of the
first attempt, and the retry-wrapped methods, under an always-failing
environment, end in tenacity `RetryError` (transient) or the immediate
`LLMError` (otherwise) - never in a value. -/
theorem c8_exception_wrapping (env : Nat → Except PyExc Nat) (e : PyExc)
    (h : env 1 = Except.error e) :
    openaiAttempt env 1 = Except.error
        (if isOpenAITransient e then e
         else PyExc.llmError ("Error calling OpenAI API: " ++ e.message))
    ∧ (∀ v, openaiAttempt env 1 ≠ Except.ok v)
    ∧ ((OpenAIProvider.init (α := Nat)).structured_chat_completion env
        = { result := .raised (if isOpenAITransient e then e
              else PyExc.llmError ("Error calling OpenAI API: " ++ e.message))
          , attempts := 1, waits := [] })
    ∧ ((OpenAIProvider.init (α := Nat)).astructured_chat_completion env
        = { result := .raised (if isOpenAITransient e then e
              else PyExc.llmError ("Error calling OpenAI API: " ++ e.message))
          , attempts := 1, waits := [] })
    ∧ ((OpenAIProvider.init (α := Nat)).chat_completion (fun _ => Except.error e)
        = if isOpenAITransient e then
            { result := .retryError e, attempts := 5, waits := [4, 4, 4, 8] }
          else
            { result := .raised (PyExc.llmError ("Error calling OpenAI API: " ++ e.message))
            , attempts := 1, waits := [] })
    ∧ ((OpenAIProvider.init (α := Nat)).achat_completion (fun _ => Except.error e)
        = if isOpenAITransient e then
            { result := .retryError e, attempts := 5, waits := [4, 4, 4, 8] }
          else
            { result := .raised (PyExc.llmError ("Error calling OpenAI API: " ++ e.message))
            , attempts := 1, waits := [] }) := by
  by_cases hT : isOpenAITransient e
  all_goals
    refine ⟨?_, ?_, ?_, ?_, ?_, ?_⟩ <;>
      simp [openaiAttempt, isOpenAITransient_llmError, h, hT, OpenAIProvider.init,
        BaseProvider.init, rawRun, retryCall, get_openai_retry_decorator, tenacityRun,
        wait_exponential]

/-- C8 witness: a parser error from the SDK (not an openai transient class)
is wrapped into `LLMError` by every method and no value is returned. -/
theorem c8_exception_wrapping_witness :
    openaiAttempt (fun _ => (Except.error (PyExc.otherError "boom") : Except PyExc Nat)) 1
      = Except.error (PyExc.llmError "Error calling OpenAI API: boom")
    ∧ (OpenAIProvider.init (α := Nat)).structured_chat_completion
        (fun _ => Except.error (PyExc.otherError "boom"))
      = { result := .raised (PyExc.llmError "Error calling OpenAI API: boom")
        , attempts := 1, waits := [] } := by
  have h := c8_exception_wrapping (fun _ => Except.error (PyExc.otherError "boom"))
    (PyExc.otherError "boom") rfl
  exact ⟨h.1, h.2.2.1⟩

/-- C3 is false of the code: `BaseProvider.__init__` applies the retry
decorator only to `chat_completion` and `achat_completion`, so the
pipeline's calls - which go through `structured_chat_completion` - are not
retried. With an environment whose first attempt raises
`openai.RateLimitError` and whose second attempt would succeed, the
structured call propagates the exception immediately after one attempt,
while the wrapped `chat_completion` under the same environment retries once
(sleeping 4 s) and returns the value. -/
theorem c3_structured_call_not_retried :
    (OpenAIProvider.init (α := Nat)).structured_chat_completion
        (fun k => if k = 1 then Except.error (PyExc.rateLimitError "429 Too Many Requests")
                  else Except.ok 42)
      = { result := .raised (PyExc.rateLimitError "429 Too Many Requests")
        , attempts := 1, waits := [] }
    ∧ (OpenAIProvider.init (α := Nat)).chat_completion
        (fun k => if k = 1 then Except.error (PyExc.rateLimitError "429 Too Many Requests")
                  else Except.ok 42)
      = { result := .ok 42, attempts := 2, waits := [4] } := by
  constructor <;> rfl

/-- C7: `PromptLoader` resolves named template files. Construction raises
`ValueError` exactly when the subfolder does not exist under the prompts
directory; on a constructed loader, attribute access for `name` loads the
template at path `subfolder/name.jinja` (relative to the prompts directory)
when that file exists and raises `AttributeError` when it does not. -/
theorem c7_prompt_loader_resolution (fs : PromptDir) (subfolder name : String)
    (loader : PromptLoader)
    (hinit : PromptLoader.init fs subfolder = Except.ok loader) :
    ((∃ l, PromptLoader.init fs subfolder = Except.ok l) ↔ subfolder ∈ fs.subfolders)
    ∧ (∀ sub2, sub2 ∉ fs.subfolders →
        PromptLoader.init fs sub2
          = Except.error (.valueError ("Subfolder " ++ sub2
              ++ " does not exist in prompts directory")))
    ∧ loader = { subfolder := subfolder, _templates := [] }
    ∧ PromptLoader.getattr fs loader name
        = (match fs.template_files (subfolder ++ "/" ++ name ++ ".jinja") with
           | some t => Except.ok (t, { subfolder := subfolder, _templates := [(name, t)] })
           | none => Except.error (.attributeError ("No template file " ++ name
               ++ ".jinja found in " ++ subfolder ++ " subfolder"))) := by
  have hmem : subfolder ∈ fs.subfolders := by
    by_contra hmem
    simp [PromptLoader.init, hmem] at hinit
  have hloader : loader = { subfolder := subfolder, _templates := [] } := by
    simp [PromptLoader.init, hmem] at hinit
    exact hinit.symm
  refine ⟨⟨fun _ => hmem, fun _ => ⟨loader, hinit⟩⟩, ?_, hloader, ?_⟩
  · intro sub2 h2
    simp [PromptLoader.init, h2]
  · subst hloader
    cases hfile : fs.template_files (subfolder ++ "/" ++ name ++ ".jinja") with
    | none => simp [PromptLoader.getattr, templatesFind, hfile]
    | some t => simp [PromptLoader.getattr, templatesFind, hfile]

/-- C7 witness: in the concrete prompts directory, constructing the loader
for `optimization` succeeds, `system` resolves to the template of
`optimization/system.jinja`, and a missing template raises
`AttributeError`. -/
theorem c7_prompt_loader_resolution_witness :
    ("optimization" ∈ promptDirExample.subfolders)
    ∧ PromptLoader.getattr promptDirExample
        { subfolder := "optimization", _templates := [] } "system"
      = Except.ok ({ src := "SYS" }
          , { subfolder := "optimization", _templates := [("system", { src := "SYS" })] }) := by
  have h := c7_prompt_loader_resolution promptDirExample "optimization" "system"
    { subfolder := "optimization", _templates := [] } rfl
  refine ⟨h.1.mp ⟨_, rfl⟩, ?_⟩
  rw [h.2.2.2]
  rfl

/-- C10: template access is idempotent via the `_templates` cache. A first
successful access stores the template under its name; any later access for
the same name returns the identical cached template with the loader state
unchanged, independent of the filesystem (no reload occurs even if the
template file has changed or disappeared). -/
theorem c10_template_cache_idempotent (fs fs2 : PromptDir) (loader : PromptLoader)
    (name : String) (t : Template) (loader2 : PromptLoader)
    (h : PromptLoader.getattr fs loader name = Except.ok (t, loader2)) :
    templatesFind loader2._templates name = some t
    ∧ PromptLoader.getattr fs2 loader2 name = Except.ok (t, loader2) := by
  have hfind : templatesFind loader2._templates name = some t := by
    unfold PromptLoader.getattr at h
    cases hcache : templatesFind loader._templates name with
    | some t0 =>
      rw [hcache] at h
      simp only [Except.ok.injEq, Prod.mk.injEq] at h
      rw [← h.2, ← h.1]
      exact hcache
    | none =>
      rw [hcache] at h
      cases hfile : fs.template_files (loader.subfolder ++ "/" ++ name ++ ".jinja") with
      | none => rw [hfile] at h; exact absurd h (by simp)
      | some t1 =>
        rw [hfile] at h
        simp only [Except.ok.injEq, Prod.mk.injEq] at h
        rw [← h.2, ← h.1]
        exact templatesFind_append_self loader._templates name t1 hcache
  refine ⟨hfind, ?_⟩
  unfold PromptLoader.getattr
  rw [hfind]

/-- C10 witness: a cached access in the concrete prompts directory returns
the identical template without consulting the filesystem again (here the
second lookup happens against a directory with no template files at all). -/
theorem c10_template_cache_idempotent_witness :
    templatesFind [("system", ({ src := "SYS" } : Template))] "system"
        = some { src := "SYS" }
    ∧ PromptLoader.getattr { subfolders := [], template_files := fun _ => none }
        { subfolder := "optimization", _templates := [("system", { src := "SYS" })] } "system"
      = Except.ok ({ src := "SYS" }
          , { subfolder := "optimization", _templates := [("system", { src := "SYS" })] }) := by
  exact c10_template_cache_idempotent promptDirExample
    { subfolders := [], template_files := fun _ => none }
    { subfolder := "optimization", _templates := [] } "system" { src := "SYS" }
    { subfolder := "optimization", _templates := [("system", { src := "SYS" })] } rfl

/-- C6: `ResumeParser.parse_resume` on an existing PDF rasterizes exactly
one image per page, base64-encodes each, sends all of them in page order as
the image entries of a single model request (after the user prompt text),
and returns the `Resume` parsed from the structured response; on a
non-existent path it returns `FileNotFoundError` with an empty model-call
trace, i.e. before any model call. -/
theorem c6_parse_resume (render : Nat → PdfPage → RasterImage)
    (jpeg : RasterImage → List Nat) (llm : List ChatMessage → ParsedMessage)
    (fs : String → Option PdfDocument) (prompts : ParserPrompts) (pdf_path : String) :
    ResumeParser.parse_resume render jpeg llm fs prompts pdf_path
      = (match fs pdf_path with
         | none => (Except.error (.fileNotFoundError ("PDF file not found: " ++ pdf_path)), [])
         | some doc =>
           (Except.ok (llm (ResumeParser.requestMessages prompts
              (doc.pages.map (fun page => image_to_base64 jpeg (render 300 page))))).parsed
           , [ResumeParser.requestMessages prompts
              (doc.pages.map (fun page => image_to_base64 jpeg (render 300 page)))]))
    ∧ (∀ doc : PdfDocument, pdf_to_images render fs pdf_path 300
        = (match fs pdf_path with
           | none => Except.error (.fileNotFoundError ("PDF file not found: " ++ pdf_path))
           | some d => Except.ok (d.pages.map (render 300)))
        ∧ (doc.pages.map (render 300)).length = doc.pages.length
        ∧ (ResumeParser.requestMessages prompts
            (doc.pages.map (fun page => image_to_base64 jpeg (render 300 page)))).length = 2) := by
  refine ⟨?_, ?_⟩
  · cases hfs : fs pdf_path with
    | none =>
      simp [ResumeParser.parse_resume, pdf_to_images, hfs]
    | some doc =>
      simp only [ResumeParser.parse_resume, pdf_to_images, hfs, ResumeParser.llmParserCall,
        List.map_map, Function.comp_def]
  · intro doc
    refine ⟨?_, by rw [List.length_map], by rfl⟩
    cases hfs : fs pdf_path with
    | none => simp [pdf_to_images, hfs]
    | some d => simp [pdf_to_images, hfs]

/-- C2: the optimizer conversation state is an append-only list of chat
turns. The constructor creates the single system message; every
`_chat_completion` leaves the existing entries untouched and appends exactly
one user message followed by one assistant message; after the constructor
and the five stages of the full pipeline the list holds `1 + 2 * 5`
messages, the first being the system message. -/
theorem c2_messages_append_only (llm : OptLLM) (prompts : OptimizerPrompts)
    (job_description : String) (current_resume : Resume)
    (user_preferences : Option String) :
    (ResumeOptimizer.init prompts).messages
        = [{ role := "system", content := .text prompts.system }]
    ∧ (∀ st message response_format,
        (ResumeOptimizer.chat_completion_ llm st message response_format).2.messages
          = st.messages
            ++ [⟨"user", MsgContent.text message⟩
               , ⟨"assistant", MsgContent.text
                  (ResumeOptimizer.chat_completion_ llm st message response_format).1⟩])
    ∧ (ResumeOptimizer.optimize_resume llm prompts job_description current_resume
        user_preferences (ResumeOptimizer.init prompts)).2.messages.length = 1 + 2 * 5
    ∧ (ResumeOptimizer.optimize_resume llm prompts job_description current_resume
        user_preferences (ResumeOptimizer.init prompts)).2.messages.head?
      = some { role := "system", content := .text prompts.system } := by
  refine ⟨rfl, ?_, rfl, rfl⟩
  intro st message response_format
  simp [ResumeOptimizer.chat_completion_]

/-- C5: each stage is one LLM call consuming the prior context. Each of the
five stage functions issues exactly one provider call, and in the full
pipeline the five recorded calls carry, in order, the schemas `JobAnalysis`,
`GapAnalysis`, `ContentPrioritization`, `OptimizedResume`, `Resume`, each
call passing the entire message history accumulated so far - the prefix of
the final transcript holding every earlier stage's assistant output. -/
theorem c5_one_call_per_stage (llm : OptLLM) (prompts : OptimizerPrompts)
    (job_description : String) (current_resume : Resume)
    (user_preferences : Option String) :
    (∀ st, (ResumeOptimizer.stage_1 llm prompts job_description user_preferences st).2.calls.length
        = st.calls.length + 1
      ∧ (ResumeOptimizer.stage_2 llm prompts current_resume st).2.calls.length
        = st.calls.length + 1
      ∧ (ResumeOptimizer.stage_3 llm prompts st).2.calls.length = st.calls.length + 1
      ∧ (ResumeOptimizer.stage_4 llm prompts st).2.calls.length = st.calls.length + 1
      ∧ (ResumeOptimizer.stage_5 llm prompts st).2.calls.length = st.calls.length + 1)
    ∧ (ResumeOptimizer.optimize_resume llm prompts job_description current_resume
        user_preferences (ResumeOptimizer.init prompts)).2.calls
      = [ { messages := (ResumeOptimizer.optimize_resume llm prompts job_description
              current_resume user_preferences (ResumeOptimizer.init prompts)).2.messages.take 2
          , response_format := .jobAnalysis }
        , { messages := (ResumeOptimizer.optimize_resume llm prompts job_description
              current_resume user_preferences (ResumeOptimizer.init prompts)).2.messages.take 4
          , response_format := .gapAnalysis }
        , { messages := (ResumeOptimizer.optimize_resume llm prompts job_description
              current_resume user_preferences (ResumeOptimizer.init prompts)).2.messages.take 6
          , response_format := .contentPrioritization }
        , { messages := (ResumeOptimizer.optimize_resume llm prompts job_description
              current_resume user_preferences (ResumeOptimizer.init prompts)).2.messages.take 8
          , response_format := .optimizedResume }
        , { messages := (ResumeOptimizer.optimize_resume llm prompts job_description
              current_resume user_preferences (ResumeOptimizer.init prompts)).2.messages.take 10
          , response_format := .resumeSchema } ] := by
  refine ⟨?_, rfl⟩
  intro st
  refine ⟨?_, ?_, ?_, ?_, ?_⟩ <;>
    simp [ResumeOptimizer.stage_1, ResumeOptimizer.stage_2, ResumeOptimizer.stage_3,
      ResumeOptimizer.stage_4, ResumeOptimizer.stage_5, ResumeOptimizer.chat_completion_]

/-- C1: `optimize_resume` executes exactly the five stages in the fixed
order stage_1 (job analysis), stage_2 (gap analysis), stage_3 (content
prioritization), stage_4 (content optimization), stage_5 (final resume),
each stage issuing a single provider call in that schema order, and returns
the result of `stage_5`. -/
theorem c1_optimize_resume_five_stages (llm : OptLLM) (prompts : OptimizerPrompts)
    (job_description : String) (current_resume : Resume)
    (user_preferences : Option String) (st : OptimizerState) :
    ResumeOptimizer.optimize_resume llm prompts job_description current_resume
        user_preferences st
      = ResumeOptimizer.stage_5 llm prompts
          (ResumeOptimizer.stage_4 llm prompts
            (ResumeOptimizer.stage_3 llm prompts
              (ResumeOptimizer.stage_2 llm prompts current_resume
                (ResumeOptimizer.stage_1 llm prompts job_description user_preferences
                  st).2).2).2).2
    ∧ (ResumeOptimizer.optimize_resume llm prompts job_description current_resume
        user_preferences st).2.calls.length = st.calls.length + 5
    ∧ (ResumeOptimizer.optimize_resume llm prompts job_description current_resume
        user_preferences st).2.calls.map ProviderCall.response_format
      = st.calls.map ProviderCall.response_format
        ++ [.jobAnalysis, .gapAnalysis, .contentPrioritization, .optimizedResume, .resumeSchema] := by
  refine ⟨rfl, ?_, ?_⟩ <;>
    simp [ResumeOptimizer.optimize_resume, ResumeOptimizer.stage_1, ResumeOptimizer.stage_2,
      ResumeOptimizer.stage_3, ResumeOptimizer.stage_4, ResumeOptimizer.stage_5,
      ResumeOptimizer.chat_completion_]

/-- C9: the pipeline never mutates its `current_resume` argument. The whole
run depends on the resume only through the read-only serialization
`model_dump_json(indent=2)` consumed by the stage-2 prompt, so two resumes
with equal serializations drive identical runs; the stage-2 call records the
serialized string inside its user message and leaves everything else
unchanged. -/
theorem c9_resume_not_mutated (llm : OptLLM) (prompts : OptimizerPrompts)
    (job_description : String) (user_preferences : Option String)
    (st : OptimizerState) (r r2 : Resume)
    (h : Resume.model_dump_json 2 r = Resume.model_dump_json 2 r2) :
    ResumeOptimizer.optimize_resume llm prompts job_description r user_preferences st
      = ResumeOptimizer.optimize_resume llm prompts job_description r2 user_preferences st
    ∧ (∀ st2, (ResumeOptimizer.stage_2 llm prompts r st2).2.calls
        = st2.calls
          ++ [{ messages := st2.messages
                ++ [{ role := "user"
                    , content := .text (prompts.stage_2 (Resume.model_dump_json 2 r)) }]
              , response_format := .gapAnalysis }]) := by
  constructor
  · simp only [ResumeOptimizer.optimize_resume, ResumeOptimizer.stage_2]
    rw [h]
  · intro st2
    simp [ResumeOptimizer.stage_2, ResumeOptimizer.chat_completion_]

/-- C9 witness: a concrete stage-2 run whose only use of the resume is the
serialized JSON inside the user message of its single call. -/
theorem c9_resume_not_mutated_witness :
    (ResumeOptimizer.stage_2 llmExample optimizerPromptsExample resumeExample
        (ResumeOptimizer.init optimizerPromptsExample)).2.calls
      = [ { messages := [ ⟨"system", MsgContent.text "sys"⟩
              , ⟨"user", MsgContent.text (Resume.model_dump_json 2 resumeExample)⟩ ]
          , response_format := Schema.gapAnalysis } ] := by
  exact (c9_resume_not_mutated llmExample optimizerPromptsExample "jd" none
      (ResumeOptimizer.init optimizerPromptsExample) resumeExample resumeExample rfl).2
    (ResumeOptimizer.init optimizerPromptsExample)

end ResumeGen
